import Mathlib

/-!
Verification of the tg-bot repository: a shallow embedding of the
reply pipeline (`chat_module.py`), the worker / orchestrator
(`tg_module.py`) and the durable store (`database.py`), together with
theorems settling the specification claims about them.

Modelling conventions:
* Python exceptions are modelled with `Except PyErr`; an `Except.error`
  value escaping a function models an uncaught exception propagating to
  the caller.
* The external completion backend and the store are modelled as oracles
  (records of call results), so that pipeline behaviour is quantified
  over every possible backend response.
* Python truthiness of strings ("" is falsy) is modelled explicitly
  wherever the source relies on it.
-/

namespace TgBot

/-- Python exception kinds relevant to this code base. -/
inductive PyErr where
  | keyError
  | typeError
  | attributeError
  | assertionError
  | serviceError
  | storeError
  deriving DecidableEq, Repr

/-- Pydantic model `ProductSearchQuery` from `chat_module.py`. -/
structure ProductSearchQuery where
  query : String
  deriving DecidableEq, Repr

/-- Pydantic model `Reply` from `chat_module.py`. -/
structure ReplyMsg where
  message : String
  deriving DecidableEq, Repr

/-- The `action_input` union `ProductSearchQuery | Reply`. -/
inductive ActionInput where
  | search : ProductSearchQuery → ActionInput
  | reply : ReplyMsg → ActionInput
  deriving DecidableEq, Repr

/-- Pydantic model `Action` from `chat_module.py`.  The `action` field is a
string discriminator; the source declares it `Literal`, but the pipeline
re-checks it with an `assert`, so the model keeps it as a free string. -/
structure Action where
  analysis : String
  action : String
  action_input : ActionInput
  deriving DecidableEq, Repr

/-- Pydantic model `ProductSearchResult` from `chat_module.py`. -/
structure ProductSearchResult where
  analysis : String
  answer : String
  deriving DecidableEq, Repr

/-- Python attribute access `action_input.query`: raises `AttributeError`
when the payload is a `Reply`. -/
def ActionInput.getQuery : ActionInput → Except PyErr String
  | .search q => .ok q.query
  | .reply _ => .error .attributeError

/-- Python attribute access `action_input.message`: raises `AttributeError`
when the payload is a `ProductSearchQuery`. -/
def ActionInput.getMessage : ActionInput → Except PyErr String
  | .reply r => .ok r.message
  | .search _ => .error .attributeError

/-- The bot configuration dictionary, with the keys `reply` reads.
`none` models an absent key (`config[k]` raises `KeyError`). -/
structure Config where
  name : Option String
  prompt : Option String
  product_catalog : Option String
  deriving DecidableEq, Repr

/-- The completion backend and product lookup, as an oracle over the two
`act` call sites (distinguished by their `response_model` argument) and the
`product_search` call site.  Each call receives the rendered content and
may raise. -/
structure CompletionOracle where
  actCall : String → Except PyErr Action
  actReplyCall : String → Except PyErr Action
  searchCall : String → String → Except PyErr ProductSearchResult

/-- One chat-history entry as returned by `Database.get_chat_history`
(a dict with keys `message`, `is_from_bot`, `timestamp`). -/
structure HistMsg where
  message : String
  is_from_bot : Bool
  timestamp : String
  deriving DecidableEq, Repr

/-- The `"-" * 30` separator rule from `get_chat_history_as_str`. -/
def historyRule : String := "------------------------------"

/-- The three lines produced for one stored message. -/
def msgLines (bot_name : String) (m : HistMsg) : List String :=
  [(if m.is_from_bot then bot_name else "User") ++ ": " ++ m.message,
   "Time: " ++ m.timestamp,
   historyRule]

/-- The lines appended for the just-received message; `if last_user_msg:`
skips `None` and the empty string. -/
def lastMsgLines : Option String → List String
  | none => []
  | some m => if m = "" then [] else ["User: " ++ m, "Time: Just now", historyRule]

/-- `get_chat_history_as_str` from `chat_module.py`. -/
def get_chat_history_as_str (bot_name : String) (chat_histories : List HistMsg)
    (last_user_msg : Option String) : String :=
  if chat_histories.isEmpty then
    "No messages found between user and " ++ bot_name
  else
    String.intercalate "\n"
      (chat_histories.flatMap (msgLines bot_name) ++ lastMsgLines last_user_msg)

/-- The serialization format the specification describes: stored messages
oldest first, each as a speaker line, a time line and a rule, with the
just-received message appended as the most recent user turn — for every
history, the empty one included.  Modelled from the spec wording, to be
compared with `get_chat_history_as_str`. -/
def specHistorySerialization (bot_name : String) (chat_histories : List HistMsg)
    (last_user_msg : String) : String :=
  String.intercalate "\n"
    (chat_histories.flatMap (msgLines bot_name) ++
     ["User: " ++ last_user_msg, "Time: Just now", historyRule])

/-- The default prompt template from `reply` (`config.get` default). -/
def defaultPrompt : String := "Be a helpful assistant with the query, {chat_history}"

/-- `prompt.format(chat_history=..., product_search_result=...)`:
placeholder substitution of the two named fields. -/
def formatPrompt (prompt chat_history product_search_result : String) : String :=
  (prompt.replace "{chat_history}" chat_history).replace
    "{product_search_result}" product_search_result

instance {ε α : Type} [DecidableEq ε] [DecidableEq α] : DecidableEq (Except ε α) := fun x y =>
  match x, y with
  | .ok a, .ok b =>
    decidable_of_iff (a = b) ⟨fun h => by rw [h], fun h => by injection h⟩
  | .ok _, .error _ => isFalse (fun h => Except.noConfusion h)
  | .error _, .ok _ => isFalse (fun h => Except.noConfusion h)
  | .error e, .error f =>
    decidable_of_iff (e = f) ⟨fun h => by rw [h], fun h => by injection h⟩

/-- Outcome of the `try` block of `reply`: the value produced (or the
exception reaching the `except`), with the number of completion-service
calls and product-search calls made. -/
structure PipeRun where
  result : Except PyErr String
  completionCalls : Nat
  searchCalls : Nat
  deriving DecidableEq, Repr

/-- The `assert action.action == 'reply'` line followed by
`return action.action_input.message`. -/
def finishAssert (a : Action) (c s : Nat) : PipeRun :=
  if a.action = "reply" then
    match a.action_input.getMessage with
    | .ok m => ⟨.ok m, c, s⟩
    | .error e => ⟨.error e, c, s⟩
  else ⟨.error .assertionError, c, s⟩

/-- The body of the `try` block of `reply` in `chat_module.py`: first
`act`, optional product-search branch with a second forced-`ReplyAction`
`act`, then the assert.  `catalog` is `config['product_catalog']`
(`none` raises `KeyError` at the lookup, inside the `try`). -/
def replyTryBlock (o : CompletionOracle) (prompt chatHistStr : String)
    (catalog : Option String) : PipeRun :=
  match o.actCall (formatPrompt prompt chatHistStr "N/A") with
  | .error e => ⟨.error e, 1, 0⟩
  | .ok action =>
    if action.action = "product_search" then
      match catalog with
      | none => ⟨.error .keyError, 1, 0⟩
      | some cat =>
        match action.action_input.getQuery with
        | .error e => ⟨.error e, 1, 0⟩
        | .ok q =>
          match o.searchCall cat q with
          | .error e => ⟨.error e, 1, 1⟩
          | .ok psr =>
            match o.actReplyCall (formatPrompt prompt chatHistStr psr.answer) with
            | .error e => ⟨.error e, 2, 1⟩
            | .ok action2 => finishAssert action2 2 1
    else finishAssert action 1 0

/-- The fixed apologetic error reply of the pipeline. -/
def errApology : String := "Sorry, I encountered an error while processing your message."

/-- The fixed non-text fallback reply. -/
def nonTextFallback : String := "Sorry, I can only echo text messages."

/-- `reply` from `chat_module.py`.  `msgText` is
`update.message.text` when `update.message` is present (`none` when the
message or its text is absent); the guard follows Python truthiness, so
`some ""` takes the non-text branch.  `config['name']` is read outside
the `try` block, so a missing name escapes as `KeyError`. -/
def reply (msgText : Option String) (cfg : Config) (chat_histories : List HistMsg)
    (o : CompletionOracle) : Except PyErr (String × Nat × Nat) :=
  match msgText with
  | some t =>
    if t = "" then .ok (nonTextFallback, 0, 0)
    else
      match cfg.name with
      | none => .error .keyError
      | some botName =>
        let chStr := get_chat_history_as_str botName chat_histories (some t)
        let prompt := cfg.prompt.getD defaultPrompt
        let run := replyTryBlock o prompt chStr cfg.product_catalog
        match run.result with
        | .ok m => .ok (m, run.completionCalls, run.searchCalls)
        | .error _ => .ok (errApology, run.completionCalls, run.searchCalls)
  | none => .ok (nonTextFallback, 0, 0)

/-- An inbound Telegram update as seen by `message_handler`. -/
structure TgEvent where
  hasEffectiveChat : Bool
  hasMessage : Bool
  text : Option String
  isCommand : Bool
  deriving DecidableEq, Repr

/-- `update.message.text` guarded by `update.message` being present. -/
def TgEvent.textOf (ev : TgEvent) : Option String :=
  if ev.hasMessage then ev.text else none

/-- Python truthiness of `update.message and update.message.text`. -/
def TgEvent.hasText (ev : TgEvent) : Bool :=
  match ev.textOf with
  | some t => t ≠ ""
  | none => false

/-- Results of the durable-store calls made while handling one event;
`Except.error` models the call raising (e.g. an operational store error —
`add_chat`/`add_message` swallow only `IntegrityError`, returning `false`). -/
structure StoreOracle where
  addChatResult : Except PyErr Bool
  getHistoryResult : Except PyErr (List HistMsg)
  addInboundResult : Except PyErr Bool
  addReplyResult : Except PyErr Bool

/-- Observable outcome of one `message_handler` invocation: the exception
escaping it (if any), the writes performed on the message store (text and
`is_from_bot` flag, in order), the external calls made, and the replies
actually sent through the transport. -/
structure HandlerOutcome where
  escaped : Option PyErr
  chatUpserted : Bool
  messageWrites : List (String × Bool)
  completionCalls : Nat
  searchCalls : Nat
  sent : List String
  deriving DecidableEq, Repr

/-- `message_handler` from `tg_module.start_bot`.  It has no exception
handler of its own: any store error, the pipeline's `KeyError` on a
missing `name`, or the `reply_text` attribute error on a message-less
update escapes to the transport framework. -/
def message_handler (ev : TgEvent) (cfg : Config) (o : CompletionOracle)
    (so : StoreOracle) : HandlerOutcome :=
  if ¬ev.hasEffectiveChat then ⟨none, false, [], 0, 0, []⟩
  else
    match so.addChatResult with
    | .error e => ⟨some e, false, [], 0, 0, []⟩
    | .ok _ =>
      match so.getHistoryResult with
      | .error e => ⟨some e, true, [], 0, 0, []⟩
      | .ok chat_history =>
        let inboundStep : Except PyErr (List (String × Bool)) :=
          match ev.textOf with
          | some t =>
            if t = "" then .ok []
            else
              match so.addInboundResult with
              | .error e => .error e
              | .ok _ => .ok [(t, false)]
          | none => .ok []
        match inboundStep with
        | .error e => ⟨some e, true, [], 0, 0, []⟩
        | .ok inWrites =>
          match reply ev.textOf cfg chat_history o with
          | .error e => ⟨some e, true, inWrites, 0, 0, []⟩
          | .ok (r, c, s) =>
            if r = "" then ⟨none, true, inWrites, c, s, []⟩
            else
              match so.addReplyResult with
              | .error e => ⟨some e, true, inWrites, c, s, []⟩
              | .ok _ =>
                if ev.hasMessage then
                  ⟨none, true, inWrites ++ [(r, true)], c, s, [r]⟩
                else
                  ⟨some .attributeError, true, inWrites ++ [(r, true)], c, s, []⟩

/-- The dispatch filter `filters.TEXT & ~filters.COMMAND` under which
`message_handler` is registered. -/
def passesFilter (ev : TgEvent) : Bool :=
  ev.hasText && !ev.isCommand

/-- What the running worker does with one inbound event: the handler runs
only when the update passes the registered filter. -/
def worker_on_event (ev : TgEvent) (cfg : Config) (o : CompletionOracle)
    (so : StoreOracle) : HandlerOutcome :=
  if passesFilter ev then message_handler ev cfg o so
  else ⟨none, false, [], 0, 0, []⟩

/-- The observable steps of `start_bot`, in program order. -/
inductive StartEvent where
  | checkRunning
  | loadBot
  | buildApplication
  | createReplyFn
  | addHandler
  | appInit
  | appStart
  | startPolling
  | registerHandle
  | persistRunning
  deriving DecidableEq, Repr

/-- Result of `start_bot`: the returned boolean and the trace of steps
executed, in order. -/
structure StartOutcome where
  ok : Bool
  trace : List StartEvent
  deriving DecidableEq, Repr

/-- `start_bot` from `tg_module.py` as a step trace.  `alreadyRunning` is
the `bot_id in self.running_bots` test, `found` whether `db.get_bot`
returned a row, `transportOk` whether the transport calls inside the
`try` succeed (a failure is modelled at `start_polling`; the `except`
returns `False` with no handle registered). -/
def start_bot (alreadyRunning found transportOk : Bool) : StartOutcome :=
  if alreadyRunning then ⟨false, [.checkRunning]⟩
  else if ¬found then ⟨false, [.checkRunning, .loadBot]⟩
  else if ¬transportOk then
    ⟨false, [.checkRunning, .loadBot, .buildApplication, .createReplyFn,
             .addHandler, .appInit, .appStart, .startPolling]⟩
  else
    ⟨true, [.checkRunning, .loadBot, .buildApplication, .createReplyFn,
            .addHandler, .appInit, .appStart, .startPolling,
            .registerHandle, .persistRunning]⟩

/-- The claim C2 states about a `start_bot` trace: the handle is in the
registry before the receive loop starts polling. -/
def registeredBeforePolling (t : List StartEvent) : Prop :=
  StartEvent.registerHandle ∈ t ∧
  t.indexOf StartEvent.registerHandle < t.indexOf StartEvent.startPolling

instance (t : List StartEvent) : Decidable (registeredBeforePolling t) :=
  inferInstanceAs (Decidable (StartEvent.registerHandle ∈ t ∧
    t.indexOf StartEvent.registerHandle < t.indexOf StartEvent.startPolling))

/-- One row of the `bots` table (`database.py`).  The JSON round-trip of
the `config` column (`json.dumps` on write, `json.loads` on read) is the
identity on the serializable values modelled here, so the column holds
the structured value directly. -/
structure BotRow where
  bot_id : String
  token : String
  bot_handle : String
  config : Config
  status : String
  deriving DecidableEq, Repr

/-- One row of the `messages` table; `message_id` is the autoincrement
primary key (the store-assigned sequence id).  The `timestamp` column
holds `CURRENT_TIMESTAMP` text whose lexicographic order coincides with
chronological order, so it is modelled by a `Nat` with its usual
order. -/
structure MsgRow where
  message_id : Nat
  chat_id : String
  bot_id : String
  message_text : String
  is_from_bot : Bool
  timestamp : Nat
  deriving DecidableEq, Repr

/-- The durable store: the `bots` and `messages` tables, rows in
insertion (rowid) order. -/
structure DbState where
  bots : List BotRow
  messages : List MsgRow
  deriving DecidableEq, Repr

/-- `Database.add_bot`: INSERT with `status` defaulting to `stopped`;
an `IntegrityError` on the `bot_id` primary key is caught and turned
into `False`. -/
def Database.add_bot (db : DbState) (bot_id token bot_handle : String)
    (config : Config) : DbState × Bool :=
  if db.bots.any (fun r => r.bot_id = bot_id) then (db, false)
  else (⟨db.bots ++ [⟨bot_id, token, bot_handle, config, "stopped"⟩], db.messages⟩, true)

/-- `Database.get_bot`: SELECT ... WHERE bot_id = ? (primary key),
`fetchone`. -/
def Database.get_bot (db : DbState) (bot_id : String) : Option BotRow :=
  db.bots.find? (fun r => r.bot_id = bot_id)

/-- `Database.update_bot`: UPDATE the `config` column of every row with
the given `bot_id`; returns `rowcount > 0`. -/
def Database.update_bot (db : DbState) (bot_id : String) (config : Config) :
    DbState × Bool :=
  (⟨db.bots.map (fun r =>
      if r.bot_id = bot_id then ⟨r.bot_id, r.token, r.bot_handle, config, r.status⟩
      else r),
    db.messages⟩,
   db.bots.any (fun r => r.bot_id = bot_id))

/-- A Python argument value passed to a store method. -/
inductive PyVal where
  | str : String → PyVal
  | cfgV : Config → PyVal
  deriving DecidableEq, Repr

/-- Calling `Database.add_bot` at the Python level: the method takes the
four required parameters `(bot_id, token, bot_handle, config)`; a call
with any other argument list raises `TypeError` before the body runs. -/
def call_add_bot (db : DbState) (args : List PyVal) : Except PyErr (DbState × Bool) :=
  match args with
  | [.str bot_id, .str token, .str bot_handle, .cfgV config] =>
    .ok (Database.add_bot db bot_id token bot_handle config)
  | _ => .error .typeError

/-- The orchestrator state: the in-memory `running_bots` registry (its
keys) and the store. -/
structure ManagerState where
  running_bots : List String
  db : DbState
  deriving DecidableEq, Repr

/-- `TelegramBotManager.create_bot` from `tg_module.py`.  The source
passes three arguments to `Database.add_bot` — `self.db.add_bot(bot_id,
token, config)` — against its four required parameters, so the call
raises `TypeError`; `create_bot` has no handler, so it escapes.
`fresh_bot_id` stands for the generated `str(uuid.uuid4())`. -/
def TelegramBotManager.create_bot (m : ManagerState) (fresh_bot_id token : String)
    (config : Config) : Except PyErr (ManagerState × Option String) :=
  match call_add_bot m.db [.str fresh_bot_id, .str token, .cfgV config] with
  | .error e => .error e
  | .ok (db2, true) => .ok (⟨m.running_bots, db2⟩, some fresh_bot_id)
  | .ok (db2, false) => .ok (⟨m.running_bots, db2⟩, none)

/-- `TelegramBotManager.update_bot`: refuses while the bot is in the
running registry, otherwise delegates to the store. -/
def TelegramBotManager.update_bot (m : ManagerState) (bot_id : String)
    (config : Config) : ManagerState × Bool :=
  if bot_id ∈ m.running_bots then (m, false)
  else
    let r := Database.update_bot m.db bot_id config
    (⟨m.running_bots, r.1⟩, r.2)

/-- The rows of the `messages` table selected by
`WHERE chat_id = ? AND bot_id = ?`, in table (rowid) order. -/
def matchingMessages (msgs : List MsgRow) (chat_id bot_id : String) : List MsgRow :=
  msgs.filter (fun r => r.chat_id = chat_id ∧ r.bot_id = bot_id)

/-- Timestamp comparison used by `ORDER BY timestamp`. -/
def tsLE (a b : MsgRow) : Prop := a.timestamp ≤ b.timestamp

instance : DecidableRel tsLE := fun a b =>
  inferInstanceAs (Decidable (a.timestamp ≤ b.timestamp))

/-- Semantics of `Database.get_chat_history`
(`SELECT ... ORDER BY timestamp` with no secondary sort key): a result
is any timestamp-sorted permutation of the selected rows; the relative
order of rows with equal timestamps is not determined by the query. -/
def isChatHistoryResult (msgs : List MsgRow) (chat_id bot_id : String)
    (result : List MsgRow) : Prop :=
  result.Perm (matchingMessages msgs chat_id bot_id) ∧ result.Sorted tsLE

instance (msgs : List MsgRow) (chat_id bot_id : String) (result : List MsgRow) :
    Decidable (isChatHistoryResult msgs chat_id bot_id result) :=
  inferInstanceAs (Decidable (result.Perm (matchingMessages msgs chat_id bot_id) ∧
    result.Sorted tsLE))

/-- The ordering claim C9 states: timestamp order with ties broken by the
store-assigned sequence id. -/
def tsSeqLex (a b : MsgRow) : Prop :=
  a.timestamp < b.timestamp ∨ (a.timestamp = b.timestamp ∧ a.message_id ≤ b.message_id)

instance : DecidableRel tsSeqLex := fun a b =>
  inferInstanceAs (Decidable (a.timestamp < b.timestamp ∨
    (a.timestamp = b.timestamp ∧ a.message_id ≤ b.message_id)))

/-- Projection of a stored message row to the dict shape
`Database.get_chat_history` returns. -/
def rowToHist (r : MsgRow) : HistMsg :=
  ⟨r.message_text, r.is_from_bot, toString r.timestamp⟩

/-- Boolean success test on a pipeline result. -/
def exceptIsOk : Except PyErr (String × Nat × Nat) → Bool
  | .ok _ => true
  | .error _ => false

/-- A backend whose every call raises a service error. -/
def oErr : CompletionOracle :=
  ⟨fun _ => .error .serviceError, fun _ => .error .serviceError,
   fun _ _ => .error .serviceError⟩

/-- A backend that first picks `product_search` and then violates the
forced reply shape on the second call. -/
def oViolate : CompletionOracle :=
  ⟨fun _ => .ok ⟨"", "product_search", .search ⟨"q"⟩⟩,
   fun _ => .ok ⟨"", "product_search", .search ⟨"q2"⟩⟩,
   fun _ _ => .ok ⟨"", "ans"⟩⟩

/-- A backend realizing pipeline scenario B of the specification. -/
def oScenarioB : CompletionOracle :=
  ⟨fun _ => .ok ⟨"a", "product_search", .search ⟨"red shoes size 9"⟩⟩,
   fun _ => .ok ⟨"a", "reply", .reply ⟨"We have them for $40!"⟩⟩,
   fun _ _ => .ok ⟨"analysis", "We have red shoes in size 9 for $40"⟩⟩

/-- A configuration with a display name and a product catalog. -/
def cfgB : Config := ⟨some "B", none, some "cat"⟩

/-- A configuration missing the `name` key. -/
def cfgNoName : Config := ⟨none, none, none⟩

/-- A store whose calls all succeed. -/
def soOk : StoreOracle := ⟨.ok true, .ok [], .ok true, .ok true⟩

/-- A store whose history read raises a store error. -/
def soHistErr : StoreOracle := ⟨.ok true, .error .storeError, .ok true, .ok true⟩

/-- A store whose chat upsert raises a store error. -/
def soChatErr : StoreOracle := ⟨.error .storeError, .ok [], .ok true, .ok true⟩

/-- A store whose inbound-message insert raises a store error. -/
def soInErr : StoreOracle := ⟨.ok true, .ok [], .error .storeError, .ok true⟩

/-- A store whose reply-row insert raises a store error. -/
def soReplyErr : StoreOracle := ⟨.ok true, .ok [], .ok true, .error .storeError⟩

/-- A non-text inbound event (a message without a text payload). -/
def evNT : TgEvent := ⟨true, true, none, false⟩

/-- A plain text inbound event. -/
def evT : TgEvent := ⟨true, true, some "hi", false⟩

/-- Two stored messages of one chat sharing a timestamp. -/
def mrow1 : MsgRow := ⟨1, "c", "b", "m1", false, 10⟩

/-- Second stored message with the same timestamp as `mrow1`. -/
def mrow2 : MsgRow := ⟨2, "c", "b", "m2", true, 10⟩

/-- A single stored message, for the C9 witness. -/
def wrow : MsgRow := ⟨1, "c", "b", "m", false, 11⟩

/-- A sample stored history message. -/
def hmsg : HistMsg := ⟨"m", false, "t"⟩

/-!
Theorems settling the claims.
-/

/-- Claim C3 (code bug): every invocation of
`TelegramBotManager.create_bot` raises `TypeError`, because the source
passes three arguments to `Database.add_bot`, whose signature requires
four (`bot_id, token, bot_handle, config`).  The claimed round-trip
`create → get` can therefore never even begin. -/
theorem C3_create_bot_raises_type_error (m : ManagerState) (fresh_bot_id token : String)
    (config : Config) :
    TelegramBotManager.create_bot m fresh_bot_id token config =
      Except.error PyErr.typeError := rfl

/-- Claim C2, counterexample: on a successful `start_bot` run the handle
is not registered before polling starts — `start_polling` is awaited at
line 144 and the registry insert happens only at line 146. -/
theorem C2_counterexample :
    (start_bot false true true).ok = true ∧
    ¬ registeredBeforePolling (start_bot false true true).trace := by
  decide

/-- Claim C2, amended: on every successful `start_bot` run the receive
loop starts polling strictly before the `RunningWorkerHandle` is put
into the registry (so there is a window in which the loop polls while
the handle is absent), and the handle is registered before `start_bot`
returns. -/
theorem C2_amended (a f t : Bool) (h : (start_bot a f t).ok = true) :
    (start_bot a f t).trace.indexOf StartEvent.startPolling <
      (start_bot a f t).trace.indexOf StartEvent.registerHandle ∧
    StartEvent.registerHandle ∈ (start_bot a f t).trace := by
  revert h
  cases a <;> cases f <;> cases t <;> decide

/-- Witness for `C2_amended` at the concrete successful run. -/
theorem C2_witness :
    (start_bot false true true).trace.indexOf StartEvent.startPolling <
      (start_bot false true true).trace.indexOf StartEvent.registerHandle ∧
    StartEvent.registerHandle ∈ (start_bot false true true).trace :=
  C2_amended false true true rfl

/-- Claim C5, counterexample: with an empty history and the non-empty
inbound text `"hi"`, the serialization is the fixed no-messages notice,
not the spec format ending in the just-received user turn. -/
theorem C5_counterexample :
    get_chat_history_as_str "Bot" [] (some "hi") =
      "No messages found between user and Bot" ∧
    get_chat_history_as_str "Bot" [] (some "hi") ≠
      specHistorySerialization "Bot" [] "hi" := by
  constructor
  · rfl
  · decide

/-- Claim C5, amended: for every non-empty history and non-empty inbound
text the serialization is exactly the claimed format — speaker line,
time line and rule per stored message, oldest first, with the inbound
message appended as the final user turn; the empty history instead
produces the fixed no-messages notice. -/
theorem C5_amended (bot_name : String) (hs : List HistMsg) (last : String)
    (hne : hs ≠ []) (hlast : last ≠ "") :
    get_chat_history_as_str bot_name hs (some last) =
      specHistorySerialization bot_name hs last := by
  have he : hs.isEmpty = false := by
    cases hs
    · exact absurd rfl hne
    · rfl
  simp [get_chat_history_as_str, specHistorySerialization, lastMsgLines, he, hlast]

/-- Witness for `C5_amended` on a one-message history. -/
theorem C5_witness :
    get_chat_history_as_str "B" [hmsg] (some "x") =
      specHistorySerialization "B" [hmsg] "x" :=
  C5_amended "B" [hmsg] "x" (by decide) (by decide)

/-- Claim C8 (confirmed): while a bot is in the running registry,
`update_bot` reports failure and leaves the persisted state, in
particular the stored configuration row, unchanged. -/
theorem C8_update_rejected_while_running (m : ManagerState) (bot_id : String)
    (config : Config) (h : bot_id ∈ m.running_bots) :
    TelegramBotManager.update_bot m bot_id config = (m, false) ∧
    Database.get_bot (TelegramBotManager.update_bot m bot_id config).1.db bot_id =
      Database.get_bot m.db bot_id := by
  have h1 : TelegramBotManager.update_bot m bot_id config = (m, false) := by
    simp [TelegramBotManager.update_bot, h]
  exact ⟨h1, by rw [h1]⟩

/-- Witness for `C8_update_rejected_while_running`. -/
theorem C8_witness :
    TelegramBotManager.update_bot ⟨["b1"], ⟨[], []⟩⟩ "b1" cfgB =
      (⟨["b1"], ⟨[], []⟩⟩, false) ∧
    Database.get_bot (TelegramBotManager.update_bot ⟨["b1"], ⟨[], []⟩⟩ "b1" cfgB).1.db "b1" =
      Database.get_bot (DbState.mk [] []) "b1" :=
  C8_update_rejected_while_running ⟨["b1"], ⟨[], []⟩⟩ "b1" cfgB (by decide)

/-- Claim C9, counterexample: `ORDER BY timestamp` carries no secondary
sort key, so for two stored messages sharing a timestamp the result that
reverses their sequence ids is a valid read, violating the claimed
sequence-id tie-break. -/
theorem C9_counterexample :
    isChatHistoryResult [mrow1, mrow2] "c" "b" [mrow2, mrow1] ∧
    ¬ List.Sorted tsSeqLex [mrow2, mrow1] := by
  decide

/-- Claim C9, amended: every valid read of the message history is
sorted by timestamp (nondecreasing) and contains exactly the stored
messages of that chat and bot; the sequence-id tie-break is not
guaranteed, but whenever all stored timestamps of the chat are distinct
the result is additionally sorted by (timestamp, sequence_id). -/
theorem C9_amended (msgs : List MsgRow) (chat_id bot_id : String)
    (result : List MsgRow) (h : isChatHistoryResult msgs chat_id bot_id result) :
    result.Sorted tsLE ∧
    (∀ r, r ∈ result ↔ r ∈ matchingMessages msgs chat_id bot_id) ∧
    ((matchingMessages msgs chat_id bot_id).Pairwise
        (fun a b => a.timestamp ≠ b.timestamp) →
      result.Sorted tsSeqLex) := by
  obtain ⟨hperm, hsort⟩ := h
  refine ⟨hsort, fun r => hperm.mem_iff, fun hdist => ?_⟩
  have hdist2 : result.Pairwise (fun a b => a.timestamp ≠ b.timestamp) :=
    (hperm.pairwise_iff (fun hxy hyx => hxy hyx.symm)).mpr hdist
  have hboth := List.Pairwise.and hsort hdist2
  exact hboth.imp (fun hab => Or.inl (lt_of_le_of_ne hab.1 hab.2))

/-- Witness for `C9_amended` on a singleton table. -/
theorem C9_witness : List.Sorted tsSeqLex [wrow] :=
  (C9_amended [wrow] "c" "b" [wrow] (by decide)).2.2 (by decide)

/-- With a text message and a configured name, the pipeline surfaces a
successful run's message unchanged. -/
theorem reply_ok_value (cfg : Config) (hs : List HistMsg) (o : CompletionOracle)
    (t nm m : String) (ht : t ≠ "") (hn : cfg.name = some nm)
    (hres : (replyTryBlock o (cfg.prompt.getD defaultPrompt)
      (get_chat_history_as_str nm hs (some t)) cfg.product_catalog).result =
      Except.ok m) :
    reply (some t) cfg hs o = Except.ok (m,
      (replyTryBlock o (cfg.prompt.getD defaultPrompt)
        (get_chat_history_as_str nm hs (some t)) cfg.product_catalog).completionCalls,
      (replyTryBlock o (cfg.prompt.getD defaultPrompt)
        (get_chat_history_as_str nm hs (some t)) cfg.product_catalog).searchCalls) := by
  rcases hrb : replyTryBlock o (cfg.prompt.getD defaultPrompt)
      (get_chat_history_as_str nm hs (some t)) cfg.product_catalog with ⟨res, c, k⟩
  rw [hrb] at hres
  have hres2 : res = Except.ok m := hres
  subst hres2
  simp only [reply]
  rw [if_neg ht, hn]
  simp [hrb]

/-- With a text message and a configured name, any exception inside the
pipeline's `try` block is caught and converted to the fixed apology. -/
theorem reply_error_apology (cfg : Config) (hs : List HistMsg) (o : CompletionOracle)
    (t nm : String) (ht : t ≠ "") (hn : cfg.name = some nm) (e : PyErr)
    (hres : (replyTryBlock o (cfg.prompt.getD defaultPrompt)
      (get_chat_history_as_str nm hs (some t)) cfg.product_catalog).result =
      Except.error e) :
    reply (some t) cfg hs o = Except.ok (errApology,
      (replyTryBlock o (cfg.prompt.getD defaultPrompt)
        (get_chat_history_as_str nm hs (some t)) cfg.product_catalog).completionCalls,
      (replyTryBlock o (cfg.prompt.getD defaultPrompt)
        (get_chat_history_as_str nm hs (some t)) cfg.product_catalog).searchCalls) := by
  rcases hrb : replyTryBlock o (cfg.prompt.getD defaultPrompt)
      (get_chat_history_as_str nm hs (some t)) cfg.product_catalog with ⟨res, c, k⟩
  rw [hrb] at hres
  have hres2 : res = Except.error e := hres
  subst hres2
  simp only [reply]
  rw [if_neg ht, hn]
  simp [hrb]

/-- The assert-and-return tail of the pipeline does not change the call
counters it is given. -/
theorem finishAssert_counts (a : Action) (c s : Nat) :
    (finishAssert a c s).completionCalls = c ∧ (finishAssert a c s).searchCalls = s := by
  unfold finishAssert
  by_cases h : a.action = "reply"
  · simp only [if_pos h]
    cases a.action_input.getMessage <;> simp
  · simp [h]

/-- The pipeline makes at most two completion calls and at most one
product search, whatever the backend answers. -/
theorem replyTryBlock_calls_le (o : CompletionOracle) (prompt chatHistStr : String)
    (catalog : Option String) :
    (replyTryBlock o prompt chatHistStr catalog).completionCalls ≤ 2 ∧
    (replyTryBlock o prompt chatHistStr catalog).searchCalls ≤ 1 := by
  unfold replyTryBlock
  cases ho : o.actCall (formatPrompt prompt chatHistStr "N/A") with
  | error e => simp
  | ok a =>
    by_cases hp : a.action = "product_search"
    · simp only [if_pos hp]
      cases catalog with
      | none => simp
      | some cat =>
        cases hq : a.action_input.getQuery with
        | error e => simp [hq]
        | ok q =>
          cases hs : o.searchCall cat q with
          | error e => simp [hq, hs]
          | ok psr =>
            cases hr : o.actReplyCall (formatPrompt prompt chatHistStr psr.answer) with
            | error e => simp [hq, hs, hr]
            | ok a2 =>
              simp only [hq, hs, hr]
              rw [(finishAssert_counts a2 2 1).1, (finishAssert_counts a2 2 1).2]
              exact ⟨le_refl 2, le_refl 1⟩
    · simp only [if_neg hp]
      rw [(finishAssert_counts a 1 0).1, (finishAssert_counts a 1 0).2]
      exact ⟨by omega, by omega⟩

/-- Claim C1, counterexample: when the backend first chooses
`product_search` and the second, forced-reply-shape call comes back with
an action other than `reply`, the pipeline does not raise to its caller:
the failed assert is caught by the pipeline's own `except` handler and
the fixed apologetic string is returned, after exactly two completion
calls and one lookup. -/
theorem C1_counterexample :
    reply (some "hi") cfgB [] oViolate = Except.ok (errApology, 2, 1) := rfl

/-- Claim C1, amended: if the first completion call picks
`product_search`, the lookup succeeds, and the second forced-reply-shape
call returns an action other than `reply`, then the pipeline makes no
third completion call, never returns the violating payload, and —
instead of raising to its caller — catches its own assert failure and
returns the fixed apologetic string. -/
theorem C1_amended (cfg : Config) (hs : List HistMsg) (o : CompletionOracle)
    (t nm cat a1s : String) (psq : ProductSearchQuery) (psr : ProductSearchResult)
    (a2 : Action)
    (ht : t ≠ "") (hn : cfg.name = some nm) (hc : cfg.product_catalog = some cat)
    (h1 : o.actCall (formatPrompt (cfg.prompt.getD defaultPrompt)
        (get_chat_history_as_str nm hs (some t)) "N/A") =
      Except.ok ⟨a1s, "product_search", ActionInput.search psq⟩)
    (h2 : o.searchCall cat psq.query = Except.ok psr)
    (h3 : o.actReplyCall (formatPrompt (cfg.prompt.getD defaultPrompt)
        (get_chat_history_as_str nm hs (some t)) psr.answer) = Except.ok a2)
    (h4 : a2.action ≠ "reply") :
    reply (some t) cfg hs o = Except.ok (errApology, 2, 1) := by
  have hrun : replyTryBlock o (cfg.prompt.getD defaultPrompt)
      (get_chat_history_as_str nm hs (some t)) cfg.product_catalog =
      ⟨Except.error PyErr.assertionError, 2, 1⟩ := by
    unfold replyTryBlock
    rw [h1]
    simp [hc, ActionInput.getQuery, h2, h3, finishAssert, h4]
  simp only [reply]
  rw [if_neg ht, hn]
  simp [hrun]

/-- Witness for `C1_amended` at a concrete violating backend. -/
theorem C1_witness :
    reply (some "yo") cfgB [] oViolate = Except.ok (errApology, 2, 1) :=
  C1_amended cfgB [] oViolate "yo" "B" "cat" "" ⟨"q"⟩ ⟨"", "ans"⟩
    ⟨"", "product_search", ActionInput.search ⟨"q2"⟩⟩
    (by decide) rfl rfl rfl rfl rfl (by decide)

/-- Claim C6 (confirmed): in the tool-use flow — first call returns
`product_search`, the lookup succeeds, the second forced-reply-shape
call returns `reply` with message `m` — the pipeline returns exactly
`m` after exactly two completion calls and one lookup; and on every
possible backend the pipeline never exceeds two completion calls and
one lookup. -/
theorem C6_tool_use_two_rounds (cfg : Config) (hs : List HistMsg) (o : CompletionOracle)
    (t nm cat a1s a2s m : String) (psq : ProductSearchQuery) (psr : ProductSearchResult)
    (ht : t ≠ "") (hn : cfg.name = some nm) (hc : cfg.product_catalog = some cat)
    (h1 : o.actCall (formatPrompt (cfg.prompt.getD defaultPrompt)
        (get_chat_history_as_str nm hs (some t)) "N/A") =
      Except.ok ⟨a1s, "product_search", ActionInput.search psq⟩)
    (h2 : o.searchCall cat psq.query = Except.ok psr)
    (h3 : o.actReplyCall (formatPrompt (cfg.prompt.getD defaultPrompt)
        (get_chat_history_as_str nm hs (some t)) psr.answer) =
      Except.ok ⟨a2s, "reply", ActionInput.reply ⟨m⟩⟩) :
    reply (some t) cfg hs o = Except.ok (m, 2, 1) ∧
    ∀ (o2 : CompletionOracle) (p ch : String) (cat2 : Option String),
      (replyTryBlock o2 p ch cat2).completionCalls ≤ 2 ∧
      (replyTryBlock o2 p ch cat2).searchCalls ≤ 1 := by
  have hrun : replyTryBlock o (cfg.prompt.getD defaultPrompt)
      (get_chat_history_as_str nm hs (some t)) cfg.product_catalog =
      ⟨Except.ok m, 2, 1⟩ := by
    unfold replyTryBlock
    rw [h1]
    simp [hc, ActionInput.getQuery, h2, h3, finishAssert, ActionInput.getMessage]
  constructor
  · simp only [reply]
    rw [if_neg ht, hn]
    simp [hrun]
  · exact fun o2 p ch cat2 => replyTryBlock_calls_le o2 p ch cat2

/-- Witness for `C6_tool_use_two_rounds` at the scenario-B backend. -/
theorem C6_witness :
    reply (some "hi") cfgB [] oScenarioB =
      Except.ok ("We have them for $40!", 2, 1) :=
  (C6_tool_use_two_rounds cfgB [] oScenarioB "hi" "B" "cat" "a" "a"
    "We have them for $40!" ⟨"red shoes size 9"⟩
    ⟨"analysis", "We have red shoes in size 9 for $40"⟩
    (by decide) rfl rfl rfl rfl rfl).1

/-- Claim C10, counterexample: with a text message and a configuration
missing the `name` key, the pipeline is not total — `config[name]` is
read outside the `try` block and the `KeyError` escapes to the caller. -/
theorem C10_counterexample :
    reply (some "hi") cfgNoName [] oErr = Except.error PyErr.keyError := rfl

/-- Claim C10, amended: the pipeline is total at its boundary provided
the configuration carries the display-name key: with a non-empty text it
returns a string, any exception inside the `try` block yields exactly
the fixed apology, and an absent or empty text yields exactly the fixed
non-text fallback.  (With the name key absent and a non-empty text, a
`KeyError` escapes instead.) -/
theorem C10_amended (cfg : Config) (hs : List HistMsg) (o : CompletionOracle)
    (t nm : String) (ht : t ≠ "") (hn : cfg.name = some nm) :
    exceptIsOk (reply (some t) cfg hs o) = true ∧
    (∀ e, (replyTryBlock o (cfg.prompt.getD defaultPrompt)
        (get_chat_history_as_str nm hs (some t)) cfg.product_catalog).result =
        Except.error e →
      reply (some t) cfg hs o = Except.ok (errApology,
        (replyTryBlock o (cfg.prompt.getD defaultPrompt)
          (get_chat_history_as_str nm hs (some t)) cfg.product_catalog).completionCalls,
        (replyTryBlock o (cfg.prompt.getD defaultPrompt)
          (get_chat_history_as_str nm hs (some t)) cfg.product_catalog).searchCalls)) ∧
    reply none cfg hs o = Except.ok (nonTextFallback, 0, 0) ∧
    reply (some "") cfg hs o = Except.ok (nonTextFallback, 0, 0) := by
  refine ⟨?_, ?_, rfl, by simp [reply]⟩
  · rcases hrb : replyTryBlock o (cfg.prompt.getD defaultPrompt)
        (get_chat_history_as_str nm hs (some t)) cfg.product_catalog with ⟨res, c, k⟩
    cases res with
    | ok m =>
      rw [reply_ok_value cfg hs o t nm m ht hn (by rw [hrb])]
      rfl
    | error e =>
      rw [reply_error_apology cfg hs o t nm ht hn e (by rw [hrb])]
      rfl
  · exact fun e he => reply_error_apology cfg hs o t nm ht hn e he

/-- Witness for `C10_amended` at an always-failing backend. -/
theorem C10_witness :
    reply (some "hey") cfgB [] oErr = Except.ok (errApology, 1, 0) :=
  (C10_amended cfgB [] oErr "hey" "B" (by decide) rfl).2.1 PyErr.serviceError rfl

/-- Claim C4, counterexample: a non-text message event handled by
`message_handler` causes one Message-store write — the fallback reply
row — contradicting the claimed zero writes; the fallback is sent and no
completion call is made. -/
theorem C4_counterexample :
    (message_handler evNT cfgNoName oErr soOk).messageWrites =
      [(nonTextFallback, true)] ∧
    (message_handler evNT cfgNoName oErr soOk).sent = [nonTextFallback] ∧
    (message_handler evNT cfgNoName oErr soOk).completionCalls = 0 :=
  ⟨rfl, rfl, rfl⟩

/-- Claim C4, amended: a non-text inbound event never reaches the
handler at all under the registered `filters.TEXT` dispatch (nothing is
sent, nothing written, no completion call); if `message_handler` is
invoked on such an event directly, it sends exactly the fixed fallback,
makes zero completion and lookup calls, writes no inbound row, but does
perform exactly one Message-store write: the fallback reply row. -/
theorem C4_amended (ev : TgEvent) (cfg : Config) (o : CompletionOracle)
    (so : StoreOracle) (b1 b3 : Bool) (hist : List HistMsg)
    (hchat : ev.hasEffectiveChat = true) (hm2 : ev.hasMessage = true)
    (htext : ev.hasText = false)
    (h4 : so.addChatResult = Except.ok b1) (h5 : so.getHistoryResult = Except.ok hist)
    (h6 : so.addReplyResult = Except.ok b3) :
    message_handler ev cfg o so =
      ⟨none, true, [(nonTextFallback, true)], 0, 0, [nonTextFallback]⟩ ∧
    worker_on_event ev cfg o so = ⟨none, false, [], 0, 0, []⟩ := by
  have hne : nonTextFallback ≠ "" := by decide
  have hof : ev.textOf = none ∨ ev.textOf = some "" := by
    unfold TgEvent.hasText at htext
    cases hx : ev.textOf with
    | none => exact Or.inl rfl
    | some s =>
      rw [hx] at htext
      simp at htext
      exact Or.inr (by rw [htext])
  have hw : worker_on_event ev cfg o so = ⟨none, false, [], 0, 0, []⟩ := by
    simp [worker_on_event, passesFilter, htext]
  rcases hof with h | h
  · exact ⟨by simp [message_handler, h, hchat, hm2, h4, h5, h6, reply, hne], hw⟩
  · exact ⟨by simp [message_handler, h, hchat, hm2, h4, h5, h6, reply, hne], hw⟩

/-- Witness for `C4_amended` at a concrete photo-style event. -/
theorem C4_witness :
    message_handler evNT cfgB oErr soOk =
      ⟨none, true, [(nonTextFallback, true)], 0, 0, [nonTextFallback]⟩ ∧
    worker_on_event evNT cfgB oErr soOk = ⟨none, false, [], 0, 0, []⟩ :=
  C4_amended evNT cfgB oErr soOk true true [] rfl rfl rfl rfl rfl rfl

/-- Claim C7, counterexample: a store error raised by the history read
escapes `message_handler` uncaught — the handler has no exception
handler — and no apologetic reply is sent for it. -/
theorem C7_counterexample :
    (message_handler evT cfgNoName oErr soHistErr).escaped =
      some PyErr.storeError ∧
    (message_handler evT cfgNoName oErr soHistErr).sent = [] :=
  ⟨rfl, rfl⟩

/-- Claim C7, amended: only exceptions raised inside the Reply Pipeline
are caught and converted to the apologetic reply (which is persisted and
sent, and the handler returns normally); exceptions in the store calls —
here the history read — propagate out of the handler uncaught, with no
apologetic reply sent, leaving loop survival to the transport framework
rather than to handler code. -/
theorem C7_amended (ev : TgEvent) (cfg : Config) (o : CompletionOracle)
    (t nm : String)
    (hchat : ev.hasEffectiveChat = true) (hm2 : ev.hasMessage = true)
    (htx : ev.text = some t) (ht : t ≠ "") (hn : cfg.name = some nm) :
    (∀ (so : StoreOracle) (b1 b2 b3 : Bool) (hist : List HistMsg) (e : PyErr),
      so.addChatResult = Except.ok b1 → so.getHistoryResult = Except.ok hist →
      so.addInboundResult = Except.ok b2 → so.addReplyResult = Except.ok b3 →
      (replyTryBlock o (cfg.prompt.getD defaultPrompt)
        (get_chat_history_as_str nm hist (some t)) cfg.product_catalog).result =
        Except.error e →
      message_handler ev cfg o so =
        ⟨none, true, [(t, false), (errApology, true)],
         (replyTryBlock o (cfg.prompt.getD defaultPrompt)
           (get_chat_history_as_str nm hist (some t)) cfg.product_catalog).completionCalls,
         (replyTryBlock o (cfg.prompt.getD defaultPrompt)
           (get_chat_history_as_str nm hist (some t)) cfg.product_catalog).searchCalls,
         [errApology]⟩) ∧
    (∀ (so : StoreOracle) (e : PyErr),
      so.addChatResult = Except.error e →
      message_handler ev cfg o so = ⟨some e, false, [], 0, 0, []⟩) ∧
    (∀ (so : StoreOracle) (b1 : Bool) (e : PyErr),
      so.addChatResult = Except.ok b1 → so.getHistoryResult = Except.error e →
      message_handler ev cfg o so = ⟨some e, true, [], 0, 0, []⟩) ∧
    (∀ (so : StoreOracle) (b1 : Bool) (hist : List HistMsg) (e : PyErr),
      so.addChatResult = Except.ok b1 → so.getHistoryResult = Except.ok hist →
      so.addInboundResult = Except.error e →
      message_handler ev cfg o so = ⟨some e, true, [], 0, 0, []⟩) ∧
    (∀ (so : StoreOracle) (b1 b2 : Bool) (hist : List HistMsg) (e : PyErr)
        (r : String) (c k : Nat),
      so.addChatResult = Except.ok b1 → so.getHistoryResult = Except.ok hist →
      so.addInboundResult = Except.ok b2 → so.addReplyResult = Except.error e →
      reply (some t) cfg hist o = Except.ok (r, c, k) → r ≠ "" →
      message_handler ev cfg o so = ⟨some e, true, [(t, false)], c, k, []⟩) := by
  have hap : errApology ≠ "" := by decide
  have hof : ev.textOf = some t := by
    unfold TgEvent.textOf
    simp [hm2, htx]
  refine ⟨?_, ?_, ?_, ?_, ?_⟩
  · intro so b1 b2 b3 hist e k1 k2 k3 k4 hres
    have hreply := reply_error_apology cfg hist o t nm ht hn e hres
    simp [message_handler, hchat, hm2, hof, ht, k1, k2, k3, k4, hreply, hap]
  · intro so e k1
    simp [message_handler, hchat, k1]
  · intro so b1 e k1 k2
    simp [message_handler, hchat, k1, k2]
  · intro so b1 hist e k1 k2 k3
    simp [message_handler, hchat, hof, ht, k1, k2, k3]
  · intro so b1 b2 hist e r c k k1 k2 k3 k4 hreply hr
    simp [message_handler, hchat, hm2, hof, ht, k1, k2, k3, k4, hreply, hr]

/-- Witness for `C7_amended`: the pipeline-failure case and the four
store-failure sites — chat upsert, history read, inbound persistence and
reply persistence — at concrete inputs. -/
theorem C7_witness :
    message_handler evT cfgB oErr soOk =
      ⟨none, true, [("hi", false), (errApology, true)], 1, 0, [errApology]⟩ ∧
    message_handler evT cfgB oErr soChatErr =
      ⟨some PyErr.storeError, false, [], 0, 0, []⟩ ∧
    message_handler evT cfgB oErr soHistErr =
      ⟨some PyErr.storeError, true, [], 0, 0, []⟩ ∧
    message_handler evT cfgB oErr soInErr =
      ⟨some PyErr.storeError, true, [], 0, 0, []⟩ ∧
    message_handler evT cfgB oErr soReplyErr =
      ⟨some PyErr.storeError, true, [("hi", false)], 1, 0, []⟩ :=
  ⟨(C7_amended evT cfgB oErr "hi" "B" rfl rfl rfl (by decide) rfl).1
      soOk true true true [] PyErr.serviceError rfl rfl rfl rfl rfl,
   (C7_amended evT cfgB oErr "hi" "B" rfl rfl rfl (by decide) rfl).2.1
      soChatErr PyErr.storeError rfl,
   (C7_amended evT cfgB oErr "hi" "B" rfl rfl rfl (by decide) rfl).2.2.1
      soHistErr true PyErr.storeError rfl rfl,
   (C7_amended evT cfgB oErr "hi" "B" rfl rfl rfl (by decide) rfl).2.2.2.1
      soInErr true [] PyErr.storeError rfl rfl rfl,
   (C7_amended evT cfgB oErr "hi" "B" rfl rfl rfl (by decide) rfl).2.2.2.2
      soReplyErr true true [] PyErr.storeError errApology 1 0 rfl rfl rfl rfl rfl
      (by decide)⟩

end TgBot
